import Mathlib

/-!
Verification of the location-to-forecast resolution engine of the CAIC
(Colorado Avalanche Information Center) chat assistant.

The embedding models the `CAICClient` class: the ray-casting point-in-ring
test, multipolygon containment with holes, the bounding-box pre-filter,
first-match area resolution, the product-type filter, and the transport
layer (HTTP responses with non-2xx failure as thrown errors). JavaScript
numbers are modelled as rationals (ℚ); coordinates are exact. Network
fetches are modelled by passing the upstream HTTP responses as explicit
inputs, and thrown errors by `Except`.
-/

namespace Caic

/-- A linear ring: a list of `(lng, lat)` pairs, as in the GeoJSON
`number[][]` coordinate arrays (each point is `[lng, lat]`). -/
abbrev LinearRing := List (ℚ × ℚ)

/-- The x-coordinate at which the edge from `pj` to `pi` meets the
horizontal line at latitude `lat`: the source expression
`((xj - xi) * (lat - yi)) / (yj - yi) + xi`. -/
def xIntersection (lat : ℚ) (pi pj : ℚ × ℚ) : ℚ :=
  ((pj.1 - pi.1) * (lat - pi.2)) / (pj.2 - pi.2) + pi.1

/-- The guard `yi > lat !== yj > lat` of the ray-casting loop: the edge's
endpoints straddle the point's latitude. -/
def straddles (lat : ℚ) (pi pj : ℚ × ℚ) : Bool :=
  decide (pi.2 > lat) != decide (pj.2 > lat)

/-- The full crossing condition of one loop iteration of `isPointInRing`:
`yi > lat !== yj > lat && lng < ((xj - xi) * (lat - yi)) / (yj - yi) + xi`. -/
def edgeCrosses (lat lng : ℚ) (pi pj : ℚ × ℚ) : Bool :=
  straddles lat pi pj && decide (lng < xIntersection lat pi pj)

/-- Ray-casting algorithm to check if a point is inside a polygon ring
(`CAICClient.isPointInRing`). The loop `for (let i = 0, j = n - 1; i < n;
j = i++)` pairs `ring[i]` with `ring[j]`, `j = i - 1 mod n`, and toggles
`inside` whenever the edge crossing condition holds. -/
def isPointInRing (lat lng : ℚ) (ring : LinearRing) : Bool :=
  (List.range ring.length).foldl
    (fun inside i =>
      if edgeCrosses lat lng (ring.getD i (0, 0))
          (ring.getD ((i + ring.length - 1) % ring.length) (0, 0)) then
        !inside
      else
        inside)
    false

/-- Check if a point is inside a MultiPolygon geometry
(`CAICClient.isPointInMultiPolygon`): some polygon has the point inside its
outer ring (`polygon[0]`) and inside none of its hole rings
(`polygon[i]`, `i ≥ 1`). -/
def isPointInMultiPolygon (lat lng : ℚ) (coordinates : List (List LinearRing)) : Bool :=
  coordinates.any fun polygon =>
    isPointInRing lat lng (polygon.headD []) &&
      !((polygon.drop 1).any fun r => isPointInRing lat lng r)

/-- Quick bounding box check (`CAICClient.isPointInBbox`): the bbox is
`[minLng, minLat, maxLng, maxLat]` and the source returns
`lng >= minLng && lng <= maxLng && lat >= minLat && lat <= maxLat`. -/
def isPointInBbox (lat lng : ℚ) (bbox : ℚ × ℚ × ℚ × ℚ) : Bool :=
  match bbox with
  | (minLng, minLat, maxLng, maxLat) =>
    decide (lng ≥ minLng) && decide (lng ≤ maxLng) &&
      decide (lat ≥ minLat) && decide (lat ≤ maxLat)

/-- A GeoJSON feature for a forecast area, with the fields the client
reads: `id`, `bbox`, `geometry.coordinates`, and `properties.id`. -/
structure Feature where
  id : String
  bbox : ℚ × ℚ × ℚ × ℚ
  coordinates : List (List LinearRing)
  propertiesId : String
deriving DecidableEq

/-- A GeoJSON FeatureCollection of forecast areas. -/
structure FeatureCollection where
  features : List Feature
deriving DecidableEq

/-- Find the area containing the given coordinates
(`CAICClient.findAreaContainingPoint`): scan the features in order, skip a
feature when the bbox check fails, return the first feature whose
multipolygon contains the point, else null. -/
def findAreaContainingPoint (lat lng : ℚ) (featureCollection : FeatureCollection) :
    Option Feature :=
  featureCollection.features.find? fun feature =>
    isPointInBbox lat lng feature.bbox &&
      isPointInMultiPolygon lat lng feature.coordinates

/-- The three product types of the CAIC API (the `type` discriminant). -/
inductive ProductType where
  | avalancheforecast
  | regionaldiscussion
  | specialproduct
deriving DecidableEq

/-- A forecast product record, with the common fields of the three
variants (`AvalancheForecast`, `RegionalDiscussion`, `SpecialProduct`);
the resolution engine reads only `type` and `areaId`. -/
structure ProductRecord where
  id : String
  type : ProductType
  areaId : String
  forecaster : String
  issueDateTime : String
  expiryDateTime : String
deriving DecidableEq

/-- An HTTP response as the client sees it: status, status text, and the
already-parsed JSON body. -/
structure HttpResponse (α : Type) where
  status : Nat
  statusText : String
  body : α

/-- The `Response.ok` accessor of the Fetch API: status in 200..299. -/
def HttpResponse.ok {α : Type} (r : HttpResponse α) : Bool :=
  decide (200 ≤ r.status) && decide (r.status ≤ 299)

/-- An error thrown by the client (`throw new Error(message)`). -/
structure TransportError where
  message : String
deriving DecidableEq

/-- Fetch GeoJSON feature data for forecast areas (`CAICClient.getAreas`):
throws `Failed to fetch areas: status statusText` when the response is not
ok, else returns the parsed body. The upstream response is an explicit
input; the request URL (built from `productType` and `includeExpired`)
does not affect this control flow. -/
def getAreas (response : HttpResponse FeatureCollection) :
    Except TransportError FeatureCollection :=
  if !response.ok then
    .error ⟨"Failed to fetch areas: " ++ toString response.status ++ " " ++
      response.statusText⟩
  else
    .ok response.body

/-- Fetch all forecast products (`CAICClient.getProducts`): throws
`Failed to fetch products: status statusText` when the response is not ok,
else returns the parsed mixed product array. -/
def getProducts (response : HttpResponse (List ProductRecord)) :
    Except TransportError (List ProductRecord) :=
  if !response.ok then
    .error ⟨"Failed to fetch products: " ++ toString response.status ++ " " ++
      response.statusText⟩
  else
    .ok response.body

/-- Keep only records whose discriminant matches the requested type
(`CAICClient.filterByProductType`, `products.filter(p => p.type === type)`). -/
def filterByProductType (products : List ProductRecord) (t : ProductType) :
    List ProductRecord :=
  products.filter fun p => p.type == t

/-- Fetch and filter the products for one product type
(`CAICClient.fetchForecastForProduct`). -/
def fetchForecastForProduct (t : ProductType)
    (response : HttpResponse (List ProductRecord)) :
    Except TransportError (List ProductRecord) := do
  let products ← getProducts response
  return filterByProductType products t

/-- Fetch the forecast/product for a location
(`CAICClient.fetchForecastForLocation`): await both fetches (Promise.all,
areas listed first, so when both fail the areas rejection is the one
surfaced), find the area containing the point, return null if none, else
the first product whose `areaId` equals the area's `properties.id`
(`product ?? null`). -/
def fetchForecastForLocation (t : ProductType) (lat lng : ℚ)
    (areasResponse : HttpResponse FeatureCollection)
    (productsResponse : HttpResponse (List ProductRecord)) :
    Except TransportError (Option ProductRecord) := do
  let areas ← getAreas areasResponse
  let products ← fetchForecastForProduct t productsResponse
  match findAreaContainingPoint lat lng areas with
  | none => return none
  | some area => return products.find? fun p => p.areaId == area.propertiesId

/-- The number of ray crossings, written after the even-odd rule: an edge
`(ring[i], ring[j])`, `j = i - 1 mod n`, counts when exactly one of the two
endpoint latitudes is strictly greater than the point's latitude and the
point's longitude is strictly less than the edge's x-intersection with the
horizontal line at the point's latitude. -/
def crossingCount (lat lng : ℚ) (ring : LinearRing) : ℕ :=
  (List.range ring.length).countP fun i =>
    let pi := ring.getD i (0, 0)
    let pj := ring.getD ((i + ring.length - 1) % ring.length) (0, 0)
    decide (Xor' (pi.2 > lat) (pj.2 > lat)) &&
      decide (lng < xIntersection lat pi pj)

/-- The client object itself: its only field is the readonly `baseUrl`;
the class has no mutable state. -/
structure CAICClient where
  baseUrl : String
deriving DecidableEq

/-- Create a new CAIC API client instance (`createCAICClient`). -/
def createCAICClient : CAICClient :=
  ⟨"https://avalanche.state.co.us/api-proxy/avid"⟩

/-- One method call on a client instance: the resolution result together
with the client as it is after the call (the method writes no field, so
the client is returned unchanged). -/
def fetchForecastForLocationCall (c : CAICClient) (t : ProductType) (lat lng : ℚ)
    (areasResponse : HttpResponse FeatureCollection)
    (productsResponse : HttpResponse (List ProductRecord)) :
    Except TransportError (Option ProductRecord) × CAICClient :=
  (fetchForecastForLocation t lat lng areasResponse productsResponse, c)

/-! Helper lemmas shared by the claim theorems. -/

/-- Folding the toggle `if p a then !acc else acc` over a list flips the
seed once per element satisfying `p`, so the outcome is the seed xor-ed
with the parity of the count. -/
theorem foldl_toggle {α : Type} (p : α → Bool) (l : List α) (b : Bool) :
    l.foldl (fun acc a => if p a then !acc else acc) b
      = (b != decide (Odd (l.countP p))) := by
  induction l generalizing b with
  | nil => simp
  | cons a l ih =>
    simp only [List.foldl_cons, ih, List.countP_cons]
    by_cases h : p a = true
    · simp only [h, if_true, Nat.odd_add_one, decide_not]
      cases b <;> cases hd : decide (Odd (l.countP p)) <;> rfl
    · simp [h]

/-- The source's crossing test equals the claim's exclusive-or phrasing. -/
theorem edgeCrosses_eq_xor (lat lng : ℚ) (pi pj : ℚ × ℚ) :
    edgeCrosses lat lng pi pj
      = (decide (Xor' (pi.2 > lat) (pj.2 > lat)) &&
          decide (lng < xIntersection lat pi pj)) := by
  unfold edgeCrosses straddles
  by_cases h1 : pi.2 > lat <;> by_cases h2 : pj.2 > lat <;>
    simp [h1, h2, Xor']

/-! The claim theorems. -/

/-- C1: for every point and ring, `isPointInRing` returns true if and only
if the number of edges `(ring[i], ring[i-1 mod n])` whose endpoints
straddle the point's latitude (exactly one endpoint latitude strictly
greater) and whose x-intersection with the point's latitude is strictly
greater than the point's longitude, is odd. -/
theorem isPointInRing_iff_odd_crossingCount (lat lng : ℚ) (ring : LinearRing) :
    isPointInRing lat lng ring = true ↔ Odd (crossingCount lat lng ring) := by
  unfold isPointInRing
  rw [foldl_toggle]
  have hc : (List.range ring.length).countP
        (fun i => edgeCrosses lat lng (ring.getD i (0, 0))
          (ring.getD ((i + ring.length - 1) % ring.length) (0, 0)))
      = crossingCount lat lng ring := by
    unfold crossingCount
    refine List.countP_congr fun i _ => ?_
    simp only [edgeCrosses_eq_xor]
  rw [hc]
  simp

/-- Two scans with pointwise equal predicates find the same element. -/
theorem find?_congr_list {α : Type} {p q : α → Bool} (l : List α)
    (h : ∀ a ∈ l, p a = q a) : l.find? p = l.find? q := by
  induction l with
  | nil => rfl
  | cons a l ih =>
    have ha := h a (List.mem_cons_self a l)
    by_cases hp : p a = true
    · rw [List.find?_cons_of_pos _ hp, List.find?_cons_of_pos _ (ha ▸ hp)]
    · rw [List.find?_cons_of_neg _ hp, List.find?_cons_of_neg _ (ha ▸ hp),
        ih fun x hx => h x (List.mem_cons_of_mem _ hx)]

/-- When every feature's bbox encloses its geometry at the query point,
the bbox pre-filter is redundant: the area scan equals a scan by exact
containment alone. -/
theorem findArea_eq_find?_multiPolygon (lat lng : ℚ) (fc : FeatureCollection)
    (hwf : ∀ f ∈ fc.features, isPointInMultiPolygon lat lng f.coordinates = true →
      isPointInBbox lat lng f.bbox = true) :
    findAreaContainingPoint lat lng fc
      = fc.features.find? fun f => isPointInMultiPolygon lat lng f.coordinates := by
  unfold findAreaContainingPoint
  refine find?_congr_list _ fun f hf => ?_
  by_cases hm : isPointInMultiPolygon lat lng f.coordinates = true
  · simp [hm, hwf f hf hm]
  · rw [Bool.not_eq_true] at hm
    simp [hm]

/-- C2: a point is in a MultiPolygon iff some constituent polygon has the
point inside its outer ring (ring 0) and inside none of its hole rings
(rings 1 and beyond); membership in any single hole excludes the point
from that polygon. Each polygon is assumed to have at least an outer
ring. -/
theorem isPointInMultiPolygon_iff_exists (lat lng : ℚ)
    (coordinates : List (List LinearRing))
    (h : ∀ polygon ∈ coordinates, polygon ≠ []) :
    isPointInMultiPolygon lat lng coordinates = true ↔
      ∃ polygon ∈ coordinates, ∃ outer holes, polygon = outer :: holes ∧
        isPointInRing lat lng outer = true ∧
        ∀ r ∈ holes, isPointInRing lat lng r = false := by
  unfold isPointInMultiPolygon
  rw [List.any_eq_true]
  constructor
  · rintro ⟨polygon, hmem, hcond⟩
    obtain ⟨outer, holes, rfl⟩ := List.exists_cons_of_ne_nil (h polygon hmem)
    rw [Bool.and_eq_true] at hcond
    refine ⟨outer :: holes, hmem, outer, holes, rfl, ?_, ?_⟩
    · simpa using hcond.1
    · intro r hr
      have h2 := hcond.2
      simp only [List.drop_succ_cons, List.drop_zero, Bool.not_eq_true',
        List.any_eq_false] at h2
      simpa using h2 r hr
  · rintro ⟨polygon, hmem, outer, holes, rfl, h1, h2⟩
    refine ⟨outer :: holes, hmem, ?_⟩
    rw [Bool.and_eq_true]
    constructor
    · simpa using h1
    · simp only [List.drop_succ_cons, List.drop_zero, Bool.not_eq_true',
        List.any_eq_false]
      intro r hr
      simpa using h2 r hr

/-- C2 witness: the square with a hole, instantiated. -/
theorem isPointInMultiPolygon_iff_exists_witness :
    ((∀ polygon ∈ [[[((0:ℚ),(0:ℚ)),(10,0),(10,10),(0,10)],
        [(4,4),(6,4),(6,6),(4,6)]]], polygon ≠ []) ∧
      (isPointInMultiPolygon 5 5 [[[((0:ℚ),(0:ℚ)),(10,0),(10,10),(0,10)],
          [(4,4),(6,4),(6,6),(4,6)]]] = true ↔
        ∃ polygon ∈ [[[((0:ℚ),(0:ℚ)),(10,0),(10,10),(0,10)],
            [(4,4),(6,4),(6,6),(4,6)]]], ∃ outer holes,
          polygon = outer :: holes ∧
          isPointInRing 5 5 outer = true ∧
          ∀ r ∈ holes, isPointInRing 5 5 r = false)) :=
  ⟨by simp, isPointInMultiPolygon_iff_exists 5 5 _ (by simp)⟩

/-- The square outer ring of the spec's test vectors. -/
def squareRing : LinearRing := [(0, 0), (10, 0), (10, 10), (0, 10)]

/-- The hole ring of the spec's test vectors. -/
def holeRing : LinearRing := [(4, 4), (6, 4), (6, 6), (4, 6)]

/-- A second square, disjoint from `squareRing`. -/
def secondSquareRing : LinearRing := [(20, 0), (30, 0), (30, 10), (20, 10)]

/-- C6: the spec's concrete geometry vectors: (5,5) is inside the square,
(lng 15, lat 5) is outside, the hole excludes (5,5), and for two disjoint
squares a point inside either is in and a point inside neither is out. -/
theorem square_test_vectors :
    isPointInRing 5 5 squareRing = true ∧
    isPointInRing 5 15 squareRing = false ∧
    isPointInMultiPolygon 5 5 [[squareRing, holeRing]] = false ∧
    isPointInMultiPolygon 5 5 [[squareRing], [secondSquareRing]] = true ∧
    isPointInMultiPolygon 5 25 [[squareRing], [secondSquareRing]] = true ∧
    isPointInMultiPolygon 5 15 [[squareRing], [secondSquareRing]] = false := by
  refine ⟨?_, ?_, ?_, ?_, ?_, ?_⟩ <;> with_unfolding_all decide

/-- C7: the bounding-box test accepts exactly the points inside the axis
ranges, both boundaries inclusive on both axes. -/
theorem isPointInBbox_iff_inclusive (lat lng minLng minLat maxLng maxLat : ℚ) :
    isPointInBbox lat lng (minLng, minLat, maxLng, maxLat) = true ↔
      (minLng ≤ lng ∧ lng ≤ maxLng ∧ minLat ≤ lat ∧ lat ≤ maxLat) := by
  simp [isPointInBbox, and_assoc, ge_iff_le]

/-- C9: whenever the straddle guard of the ray-casting loop holds the
divisor `yj - yi` of the x-intersection is nonzero, and a horizontal edge
(`yi = yj`) never counts as a crossing. -/
theorem edgeCrosses_divisor_nonzero (lat lng : ℚ) (pi pj : ℚ × ℚ) :
    (straddles lat pi pj = true → pj.2 - pi.2 ≠ 0) ∧
    (pi.2 = pj.2 → edgeCrosses lat lng pi pj = false) := by
  constructor
  · intro hs heq
    have hy : pi.2 = pj.2 := by linarith [sub_eq_zero.mp heq]
    rw [straddles, hy] at hs
    simp at hs
  · intro heq
    rw [edgeCrosses, straddles, heq]
    simp

/-- C9 witness: a vertical edge straddling the ray has nonzero divisor; a
horizontal edge is never a crossing. -/
theorem edgeCrosses_divisor_nonzero_witness :
    ((10:ℚ) - 0 ≠ 0 ∧ edgeCrosses 5 5 (0, 0) (10, 0) = false) :=
  ⟨(edgeCrosses_divisor_nonzero 5 5 (0, 0) (0, 10)).1 (by with_unfolding_all decide),
    (edgeCrosses_divisor_nonzero 5 5 (0, 0) (10, 0)).2 rfl⟩

/-- C8: resolution is deterministic and stateless: running the resolve
method a second time on the client returned by a first run, with the same
category, coordinates and upstream data, yields the same result, and the
client is unchanged by the call. -/
theorem fetchForecastForLocation_stateless (c : CAICClient) (t : ProductType)
    (lat lng : ℚ) (areasResponse : HttpResponse FeatureCollection)
    (productsResponse : HttpResponse (List ProductRecord)) :
    (fetchForecastForLocationCall c t lat lng areasResponse productsResponse).1
        = (fetchForecastForLocationCall
            (fetchForecastForLocationCall c t lat lng areasResponse
              productsResponse).2
            t lat lng areasResponse productsResponse).1 ∧
      (fetchForecastForLocationCall c t lat lng areasResponse
        productsResponse).2 = c :=
  ⟨rfl, rfl⟩

/-- C3: with well-formed bboxes (each enclosing its feature's geometry at
the query point), the scan returns the first feature in received order
whose MultiPolygon contains the point — the pre-filter skips no containing
area, and no priority or smallest-area heuristic applies — and null
exactly when no feature contains the point. -/
theorem findAreaContainingPoint_first_containing (lat lng : ℚ)
    (fc : FeatureCollection)
    (hwf : ∀ f ∈ fc.features, isPointInMultiPolygon lat lng f.coordinates = true →
      isPointInBbox lat lng f.bbox = true) :
    (findAreaContainingPoint lat lng fc
        = fc.features.find? fun f => isPointInMultiPolygon lat lng f.coordinates) ∧
      (findAreaContainingPoint lat lng fc = none ↔
        ∀ f ∈ fc.features, isPointInMultiPolygon lat lng f.coordinates = false) := by
  have key := findArea_eq_find?_multiPolygon lat lng fc hwf
  refine ⟨key, ?_⟩
  rw [key, List.find?_eq_none]
  simp

/-- A mocked forecast area: the unit square around Vail, id `vail-area`. -/
def vailFeature : Feature where
  id := "vail-area"
  bbox := (0, 0, 10, 10)
  coordinates := [[squareRing]]
  propertiesId := "vail-area"

/-- C3 witness: the single-feature collection around (5,5). -/
theorem findAreaContainingPoint_first_containing_witness :
    ((∀ f ∈ (FeatureCollection.mk [vailFeature]).features,
        isPointInMultiPolygon 5 5 f.coordinates = true →
          isPointInBbox 5 5 f.bbox = true) ∧
      ((findAreaContainingPoint 5 5 (FeatureCollection.mk [vailFeature])
          = (FeatureCollection.mk [vailFeature]).features.find? fun f =>
              isPointInMultiPolygon 5 5 f.coordinates) ∧
        (findAreaContainingPoint 5 5 (FeatureCollection.mk [vailFeature]) = none ↔
          ∀ f ∈ (FeatureCollection.mk [vailFeature]).features,
            isPointInMultiPolygon 5 5 f.coordinates = false))) :=
  ⟨by with_unfolding_all decide,
    findAreaContainingPoint_first_containing 5 5 (FeatureCollection.mk [vailFeature])
      (by with_unfolding_all decide)⟩

/-- When both upstream responses are successful, the resolve call reduces
to the pure pipeline: area lookup, then the join on `areaId`. -/
theorem fetchForecastForLocation_ok_reduce (t : ProductType) (lat lng : ℚ)
    (aResp : HttpResponse FeatureCollection)
    (pResp : HttpResponse (List ProductRecord))
    (h1 : aResp.ok = true) (h2 : pResp.ok = true) :
    fetchForecastForLocation t lat lng aResp pResp
      = match findAreaContainingPoint lat lng aResp.body with
        | none => .ok none
        | some area => .ok ((filterByProductType pResp.body t).find?
            fun p => p.areaId == area.propertiesId) := by
  unfold fetchForecastForLocation getAreas fetchForecastForProduct getProducts
  rw [h1, h2]
  rfl

/-- C4: with both fetches successful, the resolve call returns the
NotFound value (null), not an error, exactly when no area contains the
point or the found area has no record with its id in the filtered
collection; otherwise it returns the first matching record. -/
theorem fetchForecastForLocation_notFound_cases (t : ProductType) (lat lng : ℚ)
    (aResp : HttpResponse FeatureCollection)
    (pResp : HttpResponse (List ProductRecord))
    (h1 : aResp.ok = true) (h2 : pResp.ok = true)
    (hwf : ∀ f ∈ aResp.body.features,
      isPointInMultiPolygon lat lng f.coordinates = true →
        isPointInBbox lat lng f.bbox = true) :
    (fetchForecastForLocation t lat lng aResp pResp = .ok none ↔
      ((∀ f ∈ aResp.body.features,
          isPointInMultiPolygon lat lng f.coordinates = false) ∨
        ∃ area, findAreaContainingPoint lat lng aResp.body = some area ∧
          (filterByProductType pResp.body t).find?
            (fun p => p.areaId == area.propertiesId) = none)) ∧
    (∀ area r, findAreaContainingPoint lat lng aResp.body = some area →
      (filterByProductType pResp.body t).find?
          (fun p => p.areaId == area.propertiesId) = some r →
      fetchForecastForLocation t lat lng aResp pResp = .ok (some r)) := by
  have hred := fetchForecastForLocation_ok_reduce t lat lng aResp pResp h1 h2
  have hnone : findAreaContainingPoint lat lng aResp.body = none ↔
      ∀ f ∈ aResp.body.features,
        isPointInMultiPolygon lat lng f.coordinates = false := by
    rw [findArea_eq_find?_multiPolygon lat lng aResp.body hwf,
      List.find?_eq_none]
    simp
  cases hfa : findAreaContainingPoint lat lng aResp.body with
  | none =>
    refine ⟨?_, ?_⟩
    · rw [hred, hfa]
      exact ⟨fun _ => Or.inl (hnone.mp hfa), fun _ => rfl⟩
    · intro area r ha _
      exact absurd ha (by simp)
  | some area' =>
    refine ⟨?_, ?_⟩
    · rw [hred, hfa]
      constructor
      · intro hok
        simp only [Except.ok.injEq] at hok
        exact Or.inr ⟨area', rfl, hok⟩
      · rintro (hall | ⟨area2, ha2, hfind2⟩)
        · rw [hnone.mpr hall] at hfa
          exact absurd hfa (by simp)
        · simp only [Option.some.injEq] at ha2
          subst ha2
          simpa using hfind2
    · intro area r ha hf
      simp only [Option.some.injEq] at ha
      subst ha
      rw [hred, hfa]
      simpa using hf

/-- C5: if either upstream fetch yields a non-2xx response, the whole
resolve call fails with the thrown error carrying that response's status
code and status text; no partial result is produced. -/
theorem fetchForecastForLocation_transport_failure (t : ProductType)
    (lat lng : ℚ) (aResp : HttpResponse FeatureCollection)
    (pResp : HttpResponse (List ProductRecord)) :
    (aResp.ok = false →
      fetchForecastForLocation t lat lng aResp pResp
        = .error ⟨"Failed to fetch areas: " ++ toString aResp.status ++ " " ++
            aResp.statusText⟩) ∧
    (aResp.ok = true → pResp.ok = false →
      fetchForecastForLocation t lat lng aResp pResp
        = .error ⟨"Failed to fetch products: " ++ toString pResp.status ++ " " ++
            pResp.statusText⟩) := by
  constructor
  · intro h
    unfold fetchForecastForLocation getAreas
    rw [h]
    rfl
  · intro h1 h2
    unfold fetchForecastForLocation getAreas fetchForecastForProduct getProducts
    rw [h1, h2]
    rfl

/-- C10: a non-null resolve result always has the requested discriminant
and an `areaId` equal to the `properties.id` of a fetched area whose
geometry contains the query point. -/
theorem fetchForecastForLocation_result_typed (t : ProductType) (lat lng : ℚ)
    (aResp : HttpResponse FeatureCollection)
    (pResp : HttpResponse (List ProductRecord)) (r : ProductRecord)
    (h : fetchForecastForLocation t lat lng aResp pResp = .ok (some r)) :
    r.type = t ∧ ∃ f ∈ aResp.body.features, f.propertiesId = r.areaId ∧
      isPointInMultiPolygon lat lng f.coordinates = true := by
  have h1 : aResp.ok = true := by
    by_contra hc
    rw [Bool.not_eq_true] at hc
    unfold fetchForecastForLocation getAreas at h
    rw [hc] at h
    exact absurd h (by simp [Bind.bind, Except.bind])
  have h2 : pResp.ok = true := by
    by_contra hc
    rw [Bool.not_eq_true] at hc
    unfold fetchForecastForLocation getAreas fetchForecastForProduct
      getProducts at h
    rw [h1, hc] at h
    exact absurd h (by simp [Bind.bind, Except.bind])
  rw [fetchForecastForLocation_ok_reduce t lat lng aResp pResp h1 h2] at h
  cases hfa : findAreaContainingPoint lat lng aResp.body with
  | none =>
    rw [hfa] at h
    exact absurd h (by simp)
  | some area =>
    rw [hfa] at h
    simp only [Except.ok.injEq] at h
    have hmemf := List.mem_of_find?_eq_some h
    have hpred := List.find?_some h
    rw [filterByProductType, List.mem_filter] at hmemf
    have htype : r.type = t := by simpa using hmemf.2
    have hareaEq : r.areaId = area.propertiesId := by simpa using hpred
    rw [findAreaContainingPoint] at hfa
    have hmema := List.mem_of_find?_eq_some hfa
    have hpreda := List.find?_some hfa
    rw [Bool.and_eq_true] at hpreda
    exact ⟨htype, area, hmema, hareaEq.symm, hpreda.2⟩

/-- HTTP 200 response carrying the single Vail area. -/
def okAreasResponse : HttpResponse FeatureCollection where
  status := 200
  statusText := "OK"
  body := FeatureCollection.mk [vailFeature]

/-- HTTP 200 response carrying no products. -/
def emptyProductsResponse : HttpResponse (List ProductRecord) where
  status := 200
  statusText := "OK"
  body := []

/-- The mocked forecast record attached to the Vail area. -/
def vailRecord : ProductRecord where
  id := "rec-1"
  type := .avalancheforecast
  areaId := "vail-area"
  forecaster := "jdoe"
  issueDateTime := "2024-01-01"
  expiryDateTime := "2024-01-02"

/-- HTTP 200 response carrying the single Vail record. -/
def vailProductsResponse : HttpResponse (List ProductRecord) where
  status := 200
  statusText := "OK"
  body := [vailRecord]

/-- C4 witness: the mocked Vail scenario resolves to the Vail record. -/
theorem fetchForecastForLocation_notFound_cases_witness :
    (okAreasResponse.ok = true ∧ vailProductsResponse.ok = true ∧
      (∀ f ∈ okAreasResponse.body.features,
        isPointInMultiPolygon 5 5 f.coordinates = true →
          isPointInBbox 5 5 f.bbox = true)) ∧
    fetchForecastForLocation .avalancheforecast 5 5 okAreasResponse
        vailProductsResponse = .ok (some vailRecord) :=
  ⟨⟨rfl, rfl, by with_unfolding_all decide⟩,
    (fetchForecastForLocation_notFound_cases .avalancheforecast 5 5
        okAreasResponse vailProductsResponse rfl rfl
        (by with_unfolding_all decide)).2
      vailFeature vailRecord (by with_unfolding_all decide)
      (by with_unfolding_all decide)⟩

/-- C5 witness: a 500 on the areas fetch and a 503 on the products fetch
each abort the resolve call with the corresponding error. -/
theorem fetchForecastForLocation_transport_failure_witness :
    fetchForecastForLocation .avalancheforecast 5 5
        ⟨500, "Internal Server Error", FeatureCollection.mk []⟩
        emptyProductsResponse
      = .error ⟨"Failed to fetch areas: " ++ toString (500 : ℕ) ++ " " ++
          "Internal Server Error"⟩ ∧
    fetchForecastForLocation .avalancheforecast 5 5 okAreasResponse
        ⟨503, "Service Unavailable", []⟩
      = .error ⟨"Failed to fetch products: " ++ toString (503 : ℕ) ++ " " ++
          "Service Unavailable"⟩ :=
  ⟨(fetchForecastForLocation_transport_failure .avalancheforecast 5 5
      ⟨500, "Internal Server Error", FeatureCollection.mk []⟩
      emptyProductsResponse).1 rfl,
    (fetchForecastForLocation_transport_failure .avalancheforecast 5 5
      okAreasResponse ⟨503, "Service Unavailable", []⟩).2 rfl rfl⟩

/-- C10 witness: the record resolved in the Vail scenario has the
requested type and the id of a containing area. -/
theorem fetchForecastForLocation_result_typed_witness :
    fetchForecastForLocation .avalancheforecast 5 5 okAreasResponse
        vailProductsResponse = .ok (some vailRecord) ∧
    (vailRecord.type = .avalancheforecast ∧
      ∃ f ∈ okAreasResponse.body.features,
        f.propertiesId = vailRecord.areaId ∧
          isPointInMultiPolygon 5 5 f.coordinates = true) :=
  have h : fetchForecastForLocation .avalancheforecast 5 5 okAreasResponse
      vailProductsResponse = .ok (some vailRecord) := by
    with_unfolding_all rfl
  ⟨h, fetchForecastForLocation_result_typed .avalancheforecast 5 5
      okAreasResponse vailProductsResponse vailRecord h⟩

end Caic
